import Mathlib

/-!
Shallow embedding of the claude-orchestrator staged execution engine
(src/orchestrator.py, src/advanced.py, src/types_shared.py).

Python floats (success-rate thresholds, delays, clock values) are embedded
as exact rationals: for the magnitudes compared here (small integer ratios
against 0.8, small clock arithmetic) IEEE double comparison agrees with the
exact comparison. Python sets are embedded as `Finset String`. The model is
single-threaded: in the source every mutation relevant to these claims is
serialized (the rate limiter holds one mutex across the whole admission,
thread pools join before results are consumed).
-/

namespace Orch

/-- TaskResult from src/types_shared.py (fields `duration`, `retry_count`,
`timestamp` are never consulted by the claims and are omitted). -/
structure TaskResult where
  task_id : String
  success : Bool
  output : String := ""
  error : String := ""
  deriving DecidableEq, Repr

/-! ### Task executor: `execute_single_task` (src/orchestrator.py lines 1130-1192)

The backend oracle maps the attempt index to the `TaskResult` produced by
`ClaudeCodeWrapper.execute_task` on that attempt. The outcome records, besides
the returned result and the updated checkpoint sets, the list of back-off
delays slept (in order) and the number of backend invocations, so that
"the backend is not invoked" and "the delay before the next attempt" are
observable. Rate limiting and system-resource waits only delay execution and
are not modelled; an exception from the backend is modelled as a failed
result (both branches of the source sleep the same back-off). -/

structure ExecOutcome where
  result : TaskResult
  completed : Finset String
  failed : Finset String
  sleeps : List ℚ
  backendCalls : ℕ
  deriving DecidableEq

/-- The `for attempt in range(max_retries + 1)` loop. `remaining` counts the
iterations still to run; `attempt` is the current Python loop index. -/
def exec_task_loop (task_id : String) (max_retries : ℕ) (retry_delay : ℚ)
    (backend : ℕ → TaskResult) :
    ℕ → ℕ → Finset String → Finset String → List ℚ → ℕ → ExecOutcome
  | 0, _, completed, failed, sleeps, calls =>
      -- loop exhausted: record the task as failed (lines 1190-1192)
      ⟨⟨task_id, false, "", "Failed after " ++ toString (max_retries + 1) ++ " attempts"⟩,
        completed, insert task_id failed, sleeps, calls⟩
  | remaining + 1, attempt, completed, failed, sleeps, calls =>
      if task_id ∈ completed then
        -- already completed: immediate success, no backend call (lines 1139-1141)
        ⟨⟨task_id, true, "Previously completed", ""⟩, completed, failed, sleeps, calls⟩
      else
        let r := backend attempt
        if r.success then
          -- record completion and return the backend result (lines 1166-1169)
          ⟨r, insert task_id completed, failed, sleeps, calls + 1⟩
        else
          -- exponential back-off before the next attempt (lines 1180-1183)
          let sleeps' := if attempt < max_retries
            then sleeps ++ [retry_delay * 2 ^ attempt] else sleeps
          exec_task_loop task_id max_retries retry_delay backend
            remaining (attempt + 1) completed failed sleeps' (calls + 1)

def execute_single_task (task_id : String) (max_retries : ℕ) (retry_delay : ℚ)
    (backend : ℕ → TaskResult) (completed failed : Finset String) : ExecOutcome :=
  exec_task_loop task_id max_retries retry_delay backend
    (max_retries + 1) 0 completed failed [] 0

/-- The loop performs at most `remaining` further backend invocations. -/
theorem exec_task_loop_calls_le (task_id : String) (max_retries : ℕ) (retry_delay : ℚ)
    (backend : ℕ → TaskResult) :
    ∀ remaining attempt (completed failed : Finset String) (sleeps : List ℚ) (calls : ℕ),
      (exec_task_loop task_id max_retries retry_delay backend remaining attempt
          completed failed sleeps calls).backendCalls ≤ calls + remaining := by
  intro remaining
  induction remaining with
  | zero => intro attempt completed failed sleeps calls; simp [exec_task_loop]
  | succ r ih =>
      intro attempt completed failed sleeps calls
      simp only [exec_task_loop]
      split_ifs with h1 h2 h3
      · simp
      · simp
      · exact le_trans (ih _ _ _ _ _) (by omega)
      · exact le_trans (ih _ _ _ _ _) (by omega)

/-- A run in which every backend attempt fails walks the whole loop: it sleeps
`retry_delay * 2 ^ j` before each retry, spends one backend call per iteration
and ends by recording the task as failed. -/
theorem exec_task_loop_all_fail (task_id : String) (max_retries : ℕ) (retry_delay : ℚ)
    (backend : ℕ → TaskResult) (hb : ∀ n, (backend n).success = false) :
    ∀ remaining attempt (completed failed : Finset String) (sleeps : List ℚ) (calls : ℕ),
      attempt + remaining = max_retries + 1 → task_id ∉ completed →
      exec_task_loop task_id max_retries retry_delay backend remaining attempt
          completed failed sleeps calls =
        ⟨⟨task_id, false, "", "Failed after " ++ toString (max_retries + 1) ++ " attempts"⟩,
          completed, insert task_id failed,
          sleeps ++ (List.range' attempt (remaining - 1)).map (fun j => retry_delay * 2 ^ j),
          calls + remaining⟩ := by
  intro remaining
  induction remaining with
  | zero =>
      intro attempt completed failed sleeps calls hinv hc
      simp [exec_task_loop]
  | succ r ih =>
      intro attempt completed failed sleeps calls hinv hc
      simp only [exec_task_loop, if_neg hc, hb attempt, Bool.false_eq_true, if_false]
      rcases Nat.eq_zero_or_pos r with hr | hr
      · subst hr
        have hattempt : ¬ attempt < max_retries := by omega
        rw [if_neg hattempt, ih (attempt + 1) completed failed sleeps (calls + 1)
          (by omega) hc]
        simp
      · have hattempt : attempt < max_retries := by omega
        rw [if_pos hattempt, ih (attempt + 1) completed failed
          (sleeps ++ [retry_delay * 2 ^ attempt]) (calls + 1) (by omega) hc]
        obtain ⟨r', rfl⟩ : ∃ r', r = r' + 1 := ⟨r - 1, by omega⟩
        simp [List.range'_succ]
        omega

/-! ### Stage gating and the stage loop (src/orchestrator.py lines 550-571, 654-696) -/

/-- The stage success-ratio gate of `execute_stage` (lines 667-669):
`success_rate = successful / total if total else 1.0`, success iff
`success_rate >= 0.8`. -/
def stage_gate (successful total : ℕ) : Bool :=
  let rate : ℚ := if total = 0 then 1 else (successful : ℚ) / total
  decide (rate ≥ 4 / 5)

/-- `execute_stage` (lines 654-696), abstracted over the collected milestone
results and over the outcomes of the externally-effected steps: sequential
worktree merging (`merge_stage_worktrees`), the stage-level review
(`conduct_stage_code_review`, conducted only when enabled, gating only on
`not success and has_quality_issues`), and the stage commit
(`commit_stage_completion`, whose failure only logs a warning, lines
690-694 -- hence `commit_ok` does not influence the returned value). -/
def execute_stage (milestone_results : List Bool) (use_worktrees merge_ok : Bool)
    (review_enabled review_success review_issues : Bool) (commit_ok : Bool) : Bool :=
  let total := milestone_results.length
  let successful := (milestone_results.filter (fun b => b)).length
  let stage_success := stage_gate successful total
  if stage_success = false then false
  else if use_worktrees && !merge_ok then false
  else if review_enabled && !review_success && review_issues then false
  else stage_success

/-- The stage loop of `execute_milestones` (lines 550-571): walk the sorted
stage numbers; skip stages below the persisted `current_stage` cursor; on a
stage failure return failure at once (no later stage is attempted and the
cursor is left as it was); on success advance the cursor to `stage_num + 1`.
`stage_result` is the outcome of `execute_stage` for each stage number, and
the returned list records which stages were actually executed, in order. -/
def execute_milestones_loop (stage_result : ℕ → Bool) :
    List ℕ → ℕ → List ℕ → Bool × ℕ × List ℕ
  | [], current_stage, attempted => (true, current_stage, attempted)
  | n :: rest, current_stage, attempted =>
      if n < current_stage then
        execute_milestones_loop stage_result rest current_stage attempted
      else if stage_result n then
        execute_milestones_loop stage_result rest (n + 1) (attempted ++ [n])
      else (false, current_stage, attempted ++ [n])

/-! ### Milestone validation and execution
(src/orchestrator.py lines 889-980, 1194-1230; src/advanced.py lines 791-819) -/

def success_count (results : List TaskResult) : ℕ :=
  (results.filter (fun r => r.success)).length

/-- `ValidationResult.valid` after `MilestoneValidator.validate_milestone`
(src/advanced.py lines 791-819): the result starts valid and each
`add_error` makes it invalid; errors are added for every milestone task id
with no result, and for a success rate below 0.8 (a rate in [0.8, 0.9) only
adds a warning, which does not affect validity). -/
def milestone_validator_valid (milestone_task_ids : List String)
    (results : List TaskResult) : Bool :=
  let result_ids := results.map (fun r => r.task_id)
  let missing := milestone_task_ids.filter (fun tid => !(result_ids.contains tid))
  let no_missing := missing.isEmpty
  let rate_ok := if results.isEmpty then true
    else !(decide ((success_count results : ℚ) / results.length < 4 / 5))
  no_missing && rate_ok

/-- `validate_milestone_completion` (src/orchestrator.py lines 1210-1230):
no results at all is invalid; a success rate below 0.8 is invalid; otherwise
the verdict of `MilestoneValidator.validate_milestone` is returned (that
validator is pure, so the except-fallback at line 1230 is unreachable). -/
def validate_milestone_completion (milestone_task_ids : List String)
    (results : List TaskResult) : Bool :=
  if results.isEmpty then false
  else if decide ((success_count results : ℚ) / results.length < 4 / 5) then false
  else milestone_validator_valid milestone_task_ids results

/-- A task record as consumed by `execute_milestone`: its id and its
`task.get("priority", "medium")` value. -/
structure Task where
  id : String
  priority : String
  deriving DecidableEq, Repr

/-- One dependency check of `validate_milestone_dependencies` (lines
1200-1206): the dependency is satisfied iff some completed task id starts
with `dep ++ "-"`. -/
def dep_satisfied (completed : Finset String) (dep : String) : Bool :=
  decide (∃ tid ∈ completed, (dep ++ "-").isPrefixOf tid = true)

/-- `validate_milestone_dependencies` (lines 1194-1208). -/
def validate_milestone_dependencies (completed : Finset String)
    (dependencies : List String) : Bool :=
  dependencies.all (dep_satisfied completed)

/-- Outcome of `execute_milestone`: the success flag and error of the
returned dict, the groups of tasks handed to `execute_task_group` (in
order), and the accumulated task results. -/
structure MilestoneOutcome where
  success : Bool
  error : String
  executor_groups : List (List Task)
  task_results : List TaskResult
  deriving DecidableEq

/-- `execute_milestone` (lines 889-980), abstracted over the task-group
executor (`execute_task_group`) and the milestone code review
(`conduct_milestone_code_review`, run only when review is enabled and the
milestone validated, flipping success only when the review fails with
quality issues). Worktree commit and TASKS.md bookkeeping do not affect the
returned dict and are omitted. -/
def execute_milestone (completed : Finset String) (dependencies : List String)
    (tasks : List Task) (run_group : List Task → List TaskResult)
    (review_enabled review_success review_issues : Bool) : MilestoneOutcome :=
  if validate_milestone_dependencies completed dependencies = false then
    -- dependency gate (lines 903-909)
    ⟨false, "Dependencies not met", [], []⟩
  else if tasks.isEmpty then
    -- a milestone without tasks returns success at once (lines 913-915)
    ⟨true, "", [], []⟩
  else
    let highs := tasks.filter (fun t => t.priority == "high")
    let others := tasks.filter (fun t => !(t.priority == "high"))
    let high_results := if highs.isEmpty then [] else run_group highs
    -- any failed result belonging to a high-priority task skips the rest
    let critical_failures := high_results.filter
      (fun r => !r.success && (highs.map Task.id).contains r.task_id)
    let run_others := critical_failures.isEmpty && !others.isEmpty
    let other_results := if run_others then run_group others else []
    let results := high_results ++ other_results
    let groups := (if highs.isEmpty then [] else [highs])
      ++ (if run_others then [others] else [])
    let validated := validate_milestone_completion (tasks.map Task.id) results
    let final_success := if validated && review_enabled
        && !review_success && review_issues then false else validated
    ⟨final_success, "", groups, results⟩

/-! ### Checkpoint persistence: OrchestratorState (src/orchestrator.py lines 105-150) -/

/-- The three task-id sets of the checkpoint state. The remaining state
entries (stage cursor, stage results, worktree paths, log) are JSON-stable
values that are stored and reloaded unchanged and are not part of the
claimed set round-trip. -/
structure StateSets where
  completed_tasks : Finset String
  failed_tasks : Finset String
  skipped_tasks : Finset String
  deriving DecidableEq

/-- The freshly initialized state (lines 110-121). -/
def initial_state : StateSets := ⟨∅, ∅, ∅⟩

/-- The serialized record: `save_state` (lines 138-150) converts each set to
a list for JSON. Python enumerates a set in unspecified order; the model
fixes the sorted enumeration, which denotes the same set. -/
structure SavedSets where
  completed_tasks : List String
  failed_tasks : List String
  skipped_tasks : List String

/-- The on-disk state file as `load_state` classifies it: absent, present
but raising during read/JSON-parse, or parsed. -/
inductive StateFile where
  | missing
  | corrupt
  | valid (data : SavedSets)

def save_state (s : StateSets) : SavedSets :=
  ⟨s.completed_tasks.sort (· ≤ ·), s.failed_tasks.sort (· ≤ ·),
    s.skipped_tasks.sort (· ≤ ·)⟩

/-- `load_state` (lines 124-136): a missing file leaves the initialized
state; an exception while reading or parsing is caught and logged, leaving
the state untouched; otherwise each serialized list is converted back to a
set (`set(data[key])`) and the state updated. -/
def load_state : StateFile → StateSets
  | .missing => initial_state
  | .corrupt => initial_state
  | .valid d =>
      ⟨d.completed_tasks.toFinset, d.failed_tasks.toFinset, d.skipped_tasks.toFinset⟩

/-! ### Result analysis: ClaudeCodeWrapper._analyze_result (src/advanced.py lines 595-633) -/

/-- Python's `needle in hay` substring test. -/
def contains_substring (hay needle : String) : Bool :=
  (List.range (hay.data.length + 1)).any (fun i => needle.data.isPrefixOf (hay.data.drop i))

/-- The hard-coded success indicators (lines 603-609). -/
def success_indicators : List String :=
  ["Task completed successfully", "Implementation complete", "All tests passing",
    "[SUCCESS]", "Success"]

/-- The hard-coded error indicators (lines 612-618). -/
def error_indicators : List String :=
  ["Error:", "Failed:", "Exception:", "[ERROR]", "FAILED"]

/-- Python's `str.strip()`: drop leading and trailing whitespace (the
whitespace classes agree on ASCII output). -/
def strip (cs : List Char) : List Char :=
  ((cs.dropWhile Char.isWhitespace).reverse.dropWhile Char.isWhitespace).reverse

/-- `_analyze_result` (lines 595-633); the final heuristic is
`len(output.strip()) > 0`. -/
def analyze_result (returncode : ℤ) (output : String) : Bool :=
  if returncode ≠ 0 then false
  else
    let has_success := success_indicators.any (fun ind => contains_substring output ind)
    let has_errors := error_indicators.any (fun ind => contains_substring output ind)
    if has_success && !has_errors then true
    else if has_errors && !has_success then false
    else decide (0 < (strip output.data).length)

/-! ### Rate limiter: RateLimitManager (src/advanced.py lines 28-114) -/

structure RateLimiterState where
  requests_per_minute : ℕ
  burst_limit : ℕ
  request_times : List ℚ
  burst_count : ℕ
  last_reset : ℚ
  adjustment_factor : ℚ
  deriving DecidableEq

/-- A fresh limiter (lines 31-43); `t0` is the `time.time()` at construction. -/
def rate_limiter_init (rpm burst : ℕ) (t0 : ℚ) : RateLimiterState :=
  ⟨rpm, burst, [], 0, t0, 1⟩

/-- `min(self.request_times)` (line 69). Python raises on an empty list;
that is reachable only when the effective limit is ≤ 0, which no claim
exercises, so a default of 0 stands in. -/
def oldest_request (ts : List ℚ) : ℚ := ts.min?.getD 0

/-- `wait_if_needed` (lines 45-81) with the clock made explicit: `now0` is
the `time.time()` read at entry and the sleep advances the clock by exactly
the computed wait. The whole body runs under the instance mutex, so calls
are serialized and a run is a sequence of these steps. `int(rpm * factor)`
truncates toward zero; the factor is always positive, so this is the floor.
Returns the waited time and the state after the admission is recorded. -/
def wait_if_needed (st : RateLimiterState) (now0 : ℚ) : ℚ × RateLimiterState :=
  let bc := if now0 - st.last_reset > 60 then 0 else st.burst_count
  let lr := if now0 - st.last_reset > 60 then now0 else st.last_reset
  let times := st.request_times.filter (fun t => decide (t > now0 - 60))
  let w1 : ℚ := if bc ≥ st.burst_limit then max 0 (60 - (now0 - lr)) else 0
  let effective_limit : ℤ := ⌊(st.requests_per_minute : ℚ) * st.adjustment_factor⌋
  let wait : ℚ := if (times.length : ℤ) ≥ effective_limit
    then max w1 (60 - (now0 - oldest_request times)) else w1
  let now := if wait > 0 then now0 + wait else now0
  (wait, { st with request_times := times ++ [now], burst_count := bc + 1, last_reset := lr })

end Orch

/-- Claim C1: a task whose id is already in the checkpoint's completed set
gets an immediate successful TaskResult from execute_single_task and the
Execution backend is never invoked for it; the checkpoint sets are unchanged. -/
theorem C1_completed_task_short_circuits (task_id : String) (max_retries : ℕ)
    (retry_delay : ℚ) (backend : ℕ → Orch.TaskResult)
    (completed failed : Finset String) (h : task_id ∈ completed) :
    Orch.execute_single_task task_id max_retries retry_delay backend completed failed =
      ⟨⟨task_id, true, "Previously completed", ""⟩, completed, failed, [], 0⟩ := by
  simp [Orch.execute_single_task, Orch.exec_task_loop, h]

/-- Witness for C1 at a concrete input. -/
theorem C1_completed_task_short_circuits_witness :
    "t1" ∈ ({"t1"} : Finset String) ∧
    Orch.execute_single_task "t1" 3 5 (fun _ => ⟨"t1", false, "", "boom"⟩)
        {"t1"} ∅ =
      ⟨⟨"t1", true, "Previously completed", ""⟩, {"t1"}, ∅, [], 0⟩ :=
  ⟨by decide,
    C1_completed_task_short_circuits "t1" 3 5 (fun _ => ⟨"t1", false, "", "boom"⟩)
      {"t1"} ∅ (by decide)⟩

/-- Claim C6: for an uncompleted task whose backend attempts all fail, the
delay slept before retry k+1 is `retry_delay * 2 ^ k` (the recorded sleep list
is exactly `[retry_delay * 2 ^ 0, …, retry_delay * 2 ^ (max_retries - 1)]`),
the run spends exactly `max_retries + 1` backend attempts and then records the
task id as failed; moreover for an arbitrary backend the number of backend
attempts never exceeds `max_retries + 1`. -/
theorem C6_backoff_schedule (task_id : String) (max_retries : ℕ) (retry_delay : ℚ)
    (completed failed : Finset String) (anyBackend backend : ℕ → Orch.TaskResult)
    (hc : task_id ∉ completed) (hb : ∀ n, (backend n).success = false) :
    (Orch.execute_single_task task_id max_retries retry_delay anyBackend
        completed failed).backendCalls ≤ max_retries + 1 ∧
    (Orch.execute_single_task task_id max_retries retry_delay backend
        completed failed).sleeps
      = (List.range max_retries).map (fun k => retry_delay * 2 ^ k) ∧
    (Orch.execute_single_task task_id max_retries retry_delay backend
        completed failed).backendCalls = max_retries + 1 ∧
    (Orch.execute_single_task task_id max_retries retry_delay backend
        completed failed).result.success = false ∧
    task_id ∈ (Orch.execute_single_task task_id max_retries retry_delay backend
        completed failed).failed := by
  have hrun := Orch.exec_task_loop_all_fail task_id max_retries retry_delay backend hb
    (max_retries + 1) 0 completed failed [] 0 (by omega) hc
  refine ⟨?_, ?_, ?_, ?_, ?_⟩
  · simpa using Orch.exec_task_loop_calls_le task_id max_retries retry_delay anyBackend
      (max_retries + 1) 0 completed failed [] 0
  · rw [Orch.execute_single_task, hrun]
    simp [List.range_eq_range']
  · rw [Orch.execute_single_task, hrun]; simp
  · rw [Orch.execute_single_task, hrun]
  · rw [Orch.execute_single_task, hrun]
    exact Finset.mem_insert_self _ _

/-- Witness for C6 at a concrete input. -/
theorem C6_backoff_schedule_witness :
    (Orch.execute_single_task "t2" 2 5 (fun _ => ⟨"t2", true, "ok", ""⟩)
        ∅ ∅).backendCalls ≤ 2 + 1 ∧
    (Orch.execute_single_task "t2" 2 5 (fun _ => ⟨"t2", false, "", "err"⟩)
        ∅ ∅).sleeps
      = (List.range 2).map (fun k => (5 : ℚ) * 2 ^ k) ∧
    (Orch.execute_single_task "t2" 2 5 (fun _ => ⟨"t2", false, "", "err"⟩)
        ∅ ∅).backendCalls = 2 + 1 ∧
    (Orch.execute_single_task "t2" 2 5 (fun _ => ⟨"t2", false, "", "err"⟩)
        ∅ ∅).result.success = false ∧
    "t2" ∈ (Orch.execute_single_task "t2" 2 5 (fun _ => ⟨"t2", false, "", "err"⟩)
        ∅ ∅).failed :=
  C6_backoff_schedule "t2" 2 5 ∅ ∅ (fun _ => ⟨"t2", true, "ok", ""⟩)
    (fun _ => ⟨"t2", false, "", "err"⟩) (by decide) (fun _ => rfl)

/-- Claim C4 (violation): the disjointness invariant
`completedTasks ∩ failedTasks = ∅` fails across resumed runs. A task that
exhausted its retries in an earlier run is persisted in `failed_tasks`; when a
later run re-executes it and the backend now succeeds, line 1167 adds it to
`completed_tasks` but nothing ever removes it from `failed_tasks`, so the id
ends up in both sets. -/
theorem C4_disjointness_violation :
    "t1" ∈ (Orch.execute_single_task "t1" 0 1 (fun _ => ⟨"t1", true, "done", ""⟩)
        (Orch.execute_single_task "t1" 0 1 (fun _ => ⟨"t1", false, "", "boom"⟩)
          ∅ ∅).completed
        (Orch.execute_single_task "t1" 0 1 (fun _ => ⟨"t1", false, "", "boom"⟩)
          ∅ ∅).failed).completed ∩
      (Orch.execute_single_task "t1" 0 1 (fun _ => ⟨"t1", true, "done", ""⟩)
        (Orch.execute_single_task "t1" 0 1 (fun _ => ⟨"t1", false, "", "boom"⟩)
          ∅ ∅).completed
        (Orch.execute_single_task "t1" 0 1 (fun _ => ⟨"t1", false, "", "boom"⟩)
          ∅ ∅).failed).failed := by
  decide

/-- Claim C2: for a stage with at least one milestone, the stage success-ratio
gate passes iff successful / total ≥ 0.8 (equivalently 4 * total ≤ 5 *
successful); a 5-milestone stage with 4 successes passes the gate, one with 3
successes does not. -/
theorem C2_stage_gate_ratio (successful total : ℕ) (h : 0 < total) :
    ((Orch.stage_gate successful total = true ↔ (successful : ℚ) / total ≥ 4 / 5) ∧
      (Orch.stage_gate successful total = true ↔ 4 * total ≤ 5 * successful)) ∧
    Orch.stage_gate 4 5 = true ∧ Orch.stage_gate 3 5 = false := by
  have hne : total ≠ 0 := Nat.pos_iff_ne_zero.mp h
  have key : ((successful : ℚ) / total ≥ 4 / 5) ↔ 4 * total ≤ 5 * successful := by
    rw [ge_iff_le, div_le_div_iff₀ (by norm_num) (by exact_mod_cast h)]
    norm_cast
    omega
  refine ⟨⟨?_, ?_⟩, ?_, ?_⟩
  · simp [Orch.stage_gate, hne]
  · simp [Orch.stage_gate, hne, ← key]
  · norm_num [Orch.stage_gate]
  · norm_num [Orch.stage_gate]

/-- Witness for C2 at the concrete 4-of-5 stage. -/
theorem C2_stage_gate_ratio_witness :
    ((Orch.stage_gate 4 5 = true ↔ ((4 : ℕ) : ℚ) / ((5 : ℕ) : ℚ) ≥ 4 / 5) ∧
      (Orch.stage_gate 4 5 = true ↔ 4 * 5 ≤ 5 * 4)) ∧
    Orch.stage_gate 4 5 = true ∧ Orch.stage_gate 3 5 = false :=
  C2_stage_gate_ratio 4 5 (by decide)

/-- Claim C5 (counterexample): a stage whose milestone ratio, worktree merges
and review all succeed but whose stage commit fails is still reported
successful, and the persisted stage cursor advances to `stage + 1` — the claim
wrongly includes the stage commit among the steps whose failure halts the run
and blocks the cursor. -/
theorem C5_commit_failure_still_advances :
    Orch.execute_stage [true, true, true, true, true] true true true true false false
      = true ∧
    Orch.execute_milestones_loop
        (fun _ => Orch.execute_stage [true, true, true, true, true]
          true true true true false false)
        [0] 0 [] = (true, 1, [0]) := by
  have hlen : (([true, true, true, true, true] : List Bool).filter
      (fun b => b)).length = 5 := rfl
  have hgate : Orch.stage_gate 5 5 = true := by
    simp [Orch.stage_gate]
    norm_num
  have hs : Orch.execute_stage [true, true, true, true, true]
      true true true true false false = true := by
    simp [Orch.execute_stage, hlen, hgate]
  exact ⟨hs, by simp [Orch.execute_milestones_loop, hs]⟩

/-- Claim C5 (amended): `execute_stage` succeeds iff the milestone
success-ratio gate passes, worktree merging succeeds (when worktrees are in
use) and the stage review does not fail with quality issues; the outcome is
independent of the stage-commit result, whose failure only logs a warning.
The stage loop, on an executed stage that fails, halts at once: it returns
failure, attempts no later stage, and leaves the persisted cursor unchanged;
on a successful stage it advances the cursor to `stage + 1`. -/
theorem C5_stage_advance (milestone_results : List Bool)
    (use_worktrees merge_ok review_enabled review_success review_issues commit_ok : Bool)
    (f : ℕ → Bool) (rest : List ℕ) (n current_stage : ℕ) (attempted : List ℕ)
    (h : current_stage ≤ n) :
    (Orch.execute_stage milestone_results use_worktrees merge_ok review_enabled
        review_success review_issues commit_ok = true ↔
      (Orch.stage_gate ((milestone_results.filter (fun b => b)).length)
          milestone_results.length = true ∧
        (use_worktrees = true → merge_ok = true) ∧
        ¬(review_enabled = true ∧ review_success = false ∧ review_issues = true))) ∧
    (Orch.execute_stage milestone_results use_worktrees merge_ok review_enabled
        review_success review_issues commit_ok
      = Orch.execute_stage milestone_results use_worktrees merge_ok review_enabled
        review_success review_issues true) ∧
    (f n = false → Orch.execute_milestones_loop f (n :: rest) current_stage attempted
      = (false, current_stage, attempted ++ [n])) ∧
    (f n = true → Orch.execute_milestones_loop f (n :: rest) current_stage attempted
      = Orch.execute_milestones_loop f rest (n + 1) (attempted ++ [n])) := by
  refine ⟨?_, rfl, ?_, ?_⟩
  · cases hsg : Orch.stage_gate ((milestone_results.filter (fun b => b)).length)
        milestone_results.length <;>
      cases use_worktrees <;> cases merge_ok <;> cases review_enabled <;>
      cases review_success <;> cases review_issues <;>
      simp [Orch.execute_stage, hsg]
  · intro hf
    simp [Orch.execute_milestones_loop, Nat.not_lt.mpr h, hf]
  · intro hf
    simp [Orch.execute_milestones_loop, Nat.not_lt.mpr h, hf]

/-- Witness for C5 (amended) at a concrete one-stage run. -/
theorem C5_stage_advance_witness :
    (Orch.execute_stage [true] false false false false false false = true ↔
      (Orch.stage_gate ((([true] : List Bool).filter (fun b => b)).length)
          ([true] : List Bool).length = true ∧
        (false = true → false = true) ∧
        ¬(false = true ∧ false = false ∧ false = true))) ∧
    (Orch.execute_stage [true] false false false false false false
      = Orch.execute_stage [true] false false false false false true) ∧
    (true = false → Orch.execute_milestones_loop (fun _ => true) [0] 0 []
      = (false, 0, [] ++ [0])) ∧
    (true = true → Orch.execute_milestones_loop (fun _ => true) [0] 0 []
      = Orch.execute_milestones_loop (fun _ => true) [] (0 + 1) ([] ++ [0])) :=
  C5_stage_advance [true] false false false false false false
    (fun _ => true) [] 0 0 [] (by decide)

/-- Claim C3 (counterexample): a milestone with tasks m-1 and m-2 for which a
single attempted result (m-1, success) is collected has an attempted-task
success ratio of 1 ≥ 0.8, yet `validate_milestone_completion` judges it
unsuccessful, because `MilestoneValidator.validate_milestone` additionally
records an error for every milestone task with no result. -/
theorem C3_ratio_not_sufficient :
    Orch.validate_milestone_completion ["m-1", "m-2"]
        [⟨"m-1", true, "", ""⟩] = false ∧
    (Orch.success_count [⟨"m-1", true, "", ""⟩] : ℚ)
        / ([⟨"m-1", true, "", ""⟩] : List Orch.TaskResult).length ≥ 4 / 5 := by
  constructor
  · have hmv : Orch.milestone_validator_valid ["m-1", "m-2"]
        [⟨"m-1", true, "", ""⟩] = false := by
      have h1 : ((["m-1", "m-2"] : List String).filter
          (fun tid => !((([⟨"m-1", true, "", ""⟩] : List Orch.TaskResult).map
            (fun r => r.task_id)).contains tid))).isEmpty = false := rfl
      simp [Orch.milestone_validator_valid, h1]
    simp [Orch.validate_milestone_completion, hmv]
  · norm_num [show Orch.success_count [⟨"m-1", true, "", ""⟩] = 1 from rfl]

/-- Claim C3 (amended): milestone validation succeeds iff the attempted
results are non-empty, at least 80% of them succeeded (exactly 80% counts),
and every one of the milestone's task ids carries a result; zero attempted
tasks is always invalid. -/
theorem C3_validation_characterization (ids : List String)
    (results : List Orch.TaskResult) :
    Orch.validate_milestone_completion ids results = true ↔
      (results ≠ [] ∧ (Orch.success_count results : ℚ) / results.length ≥ 4 / 5 ∧
        ∀ tid ∈ ids, tid ∈ results.map (fun r => r.task_id)) := by
  rcases eq_or_ne results [] with rfl | hres
  · simp [Orch.validate_milestone_completion]
  · have hne : ¬ (results.isEmpty = true) := by simp [hres]
    rw [Orch.validate_milestone_completion, if_neg hne]
    by_cases hrate : ((Orch.success_count results : ℚ) / results.length < 4 / 5)
    · rw [if_pos (by simpa using hrate)]
      simp [hres, not_le.mpr hrate]
    · rw [if_neg (by simpa using hrate)]
      rw [Orch.milestone_validator_valid]
      simp only [hne, if_false, Bool.not_false, Bool.and_true, decide_eq_true_eq]
      simp [List.isEmpty_iff, List.filter_eq_nil_iff, hres, not_lt.mp hrate]

/-- Claim C7: a milestone one of whose declared dependencies has no completed
task recorded in the checkpoint resolves to a failed outcome carrying the
dependency error, and no task group is ever handed to the task executor. -/
theorem C7_dependency_gate (completed : Finset String) (dependencies : List String)
    (tasks : List Orch.Task) (run_group : List Orch.Task → List Orch.TaskResult)
    (review_enabled review_success review_issues : Bool) (dep : String)
    (hdep : dep ∈ dependencies) (hzero : Orch.dep_satisfied completed dep = false) :
    Orch.execute_milestone completed dependencies tasks run_group
        review_enabled review_success review_issues
      = ⟨false, "Dependencies not met", [], []⟩ := by
  have hval : Orch.validate_milestone_dependencies completed dependencies = false := by
    unfold Orch.validate_milestone_dependencies
    simp only [List.all_eq_false]
    exact ⟨dep, hdep, by simp [hzero]⟩
  rw [Orch.execute_milestone, if_pos (by rw [hval])]

/-- Witness for C7 at a concrete milestone. -/
theorem C7_dependency_gate_witness :
    "d" ∈ ["d"] ∧ Orch.dep_satisfied ∅ "d" = false ∧
    Orch.execute_milestone ∅ ["d"] [⟨"d-1", "high"⟩] (fun _ => [])
        false false false
      = ⟨false, "Dependencies not met", [], []⟩ :=
  ⟨by decide, by decide,
    C7_dependency_gate ∅ ["d"] [⟨"d-1", "high"⟩] (fun _ => [])
      false false false "d" (by decide) (by decide)⟩

/-- Claim C9: a save/load round-trip restores the completed, failed and
skipped task collections as equal sets (serialized as lists, deserialized
back into sets), and loading a missing or unparsable state file yields the
initial empty state instead of an error. -/
theorem C9_checkpoint_roundtrip :
    (∀ s : Orch.StateSets,
      Orch.load_state (Orch.StateFile.valid (Orch.save_state s)) = s) ∧
    Orch.load_state Orch.StateFile.missing = Orch.initial_state ∧
    Orch.load_state Orch.StateFile.corrupt = Orch.initial_state := by
  refine ⟨fun s => ?_, rfl, rfl⟩
  cases s
  simp [Orch.load_state, Orch.save_state, Finset.sort_toFinset]

/-- Claim C10: when the backend exits with returncode 0 and its stdout
contains none of the success indicators and none of the error indicators,
the analysis judges the task successful iff stdout is non-empty after
stripping whitespace; a returncode-0 invocation with empty output is judged
a failure. -/
theorem C10_neutral_output_heuristic (output : String)
    (hs : ∀ ind ∈ Orch.success_indicators, Orch.contains_substring output ind = false)
    (he : ∀ ind ∈ Orch.error_indicators, Orch.contains_substring output ind = false) :
    (Orch.analyze_result 0 output = true ↔ Orch.strip output.data ≠ []) ∧
    Orch.analyze_result 0 "" = false := by
  have hsa : Orch.success_indicators.any
      (fun ind => Orch.contains_substring output ind) = false := by
    simp only [List.any_eq_false]
    intro ind hind
    simp [hs ind hind]
  have hea : Orch.error_indicators.any
      (fun ind => Orch.contains_substring output ind) = false := by
    simp only [List.any_eq_false]
    intro ind hind
    simp [he ind hind]
  constructor
  · rw [Orch.analyze_result]
    simp [hsa, hea, List.length_pos]
  · decide

/-- Witness for C10 at a concrete neutral output. -/
theorem C10_neutral_output_heuristic_witness :
    (Orch.analyze_result 0 "hello" = true ↔
      Orch.strip ("hello" : String).data ≠ []) ∧
    Orch.analyze_result 0 "" = false :=
  C10_neutral_output_heuristic "hello" (by decide) (by decide)

/-- Claim C8 (violation): take burst_limit = 1, one admission at t = 0, then
a request at t = 1. The second caller sleeps the remaining 59 s of the burst
window and is then admitted without any counter reset: afterwards
burst_count = 2 > burst_limit and last_reset is still 0 — two admissions
occurred before any burst-window reset, contradicting the claimed burst
bound. The code never resets the burst counter after sleeping out the
window (the reset at lines 51-53 only happens at the entry of a later
call). -/
theorem C8_burst_bound_violation :
    (Orch.wait_if_needed (Orch.rate_limiter_init 50 1 0) 0).1 = 0 ∧
    (Orch.wait_if_needed
        ((Orch.wait_if_needed (Orch.rate_limiter_init 50 1 0) 0).2) 1).1 = 59 ∧
    (Orch.wait_if_needed
        ((Orch.wait_if_needed (Orch.rate_limiter_init 50 1 0) 0).2) 1).2.burst_count = 2 ∧
    (Orch.wait_if_needed
        ((Orch.wait_if_needed (Orch.rate_limiter_init 50 1 0) 0).2) 1).2.burst_limit = 1 ∧
    (Orch.wait_if_needed
        ((Orch.wait_if_needed (Orch.rate_limiter_init 50 1 0) 0).2) 1).2.last_reset = 0 := by
  have step1 : Orch.wait_if_needed (Orch.rate_limiter_init 50 1 0) 0
      = (0, ⟨50, 1, [0], 1, 0, 1⟩) := by
    norm_num [Orch.wait_if_needed, Orch.rate_limiter_init, Orch.oldest_request]
  have step2 : Orch.wait_if_needed ⟨50, 1, [0], 1, 0, 1⟩ 1
      = (59, ⟨50, 1, [0, 60], 2, 0, 1⟩) := by
    norm_num [Orch.wait_if_needed, Orch.oldest_request, List.filter_cons, max_def]
  simp [step1, step2]
